import Mathlib

/-!
A shallow embedding of `diamondburned/message-for-me` (`main.go`): the
command parser, the announcement rate-limit gate, the per-author
last-announcement store, the command dispatcher, and the control loop,
together with theorems about their behaviour.

Discord snowflake identifiers are modelled as `Nat`, instants and
durations (`time.Time`, `time.Duration`) as `Int` nanoseconds, and Go
strings as `List Char`.  Side effects (sent messages, replies, edits,
store accesses, member-list subscriptions) are reified as explicit
action lists; results of external calls are supplied as inputs.
Logging (`slog`) is not modelled.
-/

namespace MessageForMe

/-- Discord user identifier (`discord.UserID`). -/
abbrev UserID := Nat
/-- Discord guild identifier (`discord.GuildID`). -/
abbrev GuildID := Nat
/-- Discord channel identifier (`discord.ChannelID`). -/
abbrev ChannelID := Nat
/-- Discord message identifier (`discord.MessageID`). -/
abbrev MessageID := Nat
/-- Discord role identifier (`discord.RoleID`). -/
abbrev RoleID := Nat

/-- Embeds `discord.Snowflake.IsValid`: the zero snowflake is the invalid one
(arikawa also treats the null value specially; unset IDs are zero). -/
def GuildID.isValid (g : GuildID) : Bool := g ≠ 0

/-- Go strings, modelled as lists of characters. -/
abbrev Str := List Char

/-- Go errors, modelled by their message text. -/
abbrev GoError := Str

/-- Go duration base unit (`time.Duration`): one nanosecond. -/
def Nanosecond : Int := 1
/-- Go duration `time.Second` in nanoseconds. -/
def Second : Int := 1000000000
/-- Go duration `time.Minute` in nanoseconds. -/
def Minute : Int := 60 * Second
/-- Go duration `time.Hour` in nanoseconds. -/
def Hour : Int := 60 * Minute

/-- Embeds `unicode.IsSpace`, restricted to the ASCII range (the inputs the
parser trims are mention tokens and command words). -/
def goIsSpace (c : Char) : Bool :=
  c = ' ' ∨ c = '\t' ∨ c = '\n' ∨ c = Char.ofNat 11 ∨ c = Char.ofNat 12 ∨ c = '\r'

/-- Embeds `strings.ToLower` on one character (ASCII case mapping). -/
def goToLowerChar (c : Char) : Char :=
  if 'A' ≤ c ∧ c ≤ 'Z' then Char.ofNat (c.toNat + 32) else c

/-- Embeds `strings.ToLower` (ASCII case mapping). -/
def goToLower (s : Str) : Str := s.map goToLowerChar

/-- Embeds `strings.HasPrefix s p`. -/
def goHasPrefix (s p : Str) : Bool := p.isPrefixOf s

/-- Embeds `strings.TrimPrefix s p`: drops `p` from the front of `s` when it is
a prefix, otherwise returns `s` unchanged. -/
def goTrimPrefix (s p : Str) : Str :=
  if p.isPrefixOf s then s.drop p.length else s

/-- Embeds `strings.TrimSpace`: trims whitespace from both ends. -/
def goTrimSpace (s : Str) : Str :=
  ((s.dropWhile goIsSpace).reverse.dropWhile goIsSpace).reverse

/-- Embeds `strings.Cut s sep` for the separator newline: splits `s` around the first newline, returning
`none` when `s` contains no newline (the `found` result of `Cut`). -/
def cutNewline (s : Str) : Option (Str × Str) :=
  if s.contains '\n' then
    some (s.takeWhile (· != '\n'), (s.dropWhile (· != '\n')).tail)
  else
    none

/-- Embeds `discord.UserID.Mention`: the literal `<@id>` token. -/
def mention (id : UserID) : Str := ("<@" ++ toString id ++ ">").data

/-- Embeds `botSettings` from the repository's `settings.go`: the bot's
immutable configuration — the target channel to send messages to, the
role identifiers allowed to use the bot, and the minimum time gap
between announcements. -/
structure botSettings where
  TargetChannelID : ChannelID
  AllowedRoleIDs : List RoleID
  MinAnnounceTimeGap : Int
deriving DecidableEq

/-- Embeds the `settings` value from `settings.go`: the target channel
710342070342254613 (the announcements channel), the single allowed role
808121046028779602, and a 4-hour minimum announce gap. -/
def settings : botSettings :=
  { TargetChannelID := 710342070342254613,
    AllowedRoleIDs := [808121046028779602],
    MinAnnounceTimeGap := 4 * Hour }

/-- The bot's mutable lifecycle state (`botState` in `main.go`): the
embedded settings plus self identity, target guild identity and the
last successful announcement time. -/
structure botState extends botSettings where
  SelfID : UserID
  TargetGuildID : GuildID
  LastAnnouncedTime : Int
deriving DecidableEq

/-- The slice of `discord.Member` the bot reads: the author's role
identifiers. -/
structure Member where
  RoleIDs : List RoleID
deriving DecidableEq

/-- The slice of `gateway.MessageCreateEvent` the bot reads.
`MentionsSelf` stands for the injected mention-resolution capability
(`session.MessageMentions(&msg.Message) & ningen.MessageMentions ≠ 0`):
whether the message explicitly mentions the bot's own identity. -/
structure MessageCreateEvent where
  ID : MessageID
  ChannelID : ChannelID
  GuildID : GuildID
  AuthorID : UserID
  Content : Str
  Member : Option Member
  MentionsSelf : Bool
deriving DecidableEq

/-- Embeds `parsedCommand` from `main.go`: a command word and a verbatim body. -/
structure parsedCommand where
  Command : Str
  Body : Str
deriving DecidableEq

/-- Embeds `parseCommand` from `main.go`: guild/membership check, self-mention
check, role check, then the two-line format.  Returns the parsed
command together with the declared (never used) error result. -/
def parseCommand (bot : botState) (msg : MessageCreateEvent) :
    Option parsedCommand × Option GoError :=
  match msg.Member with
  | none => (none, none)
  | some member =>
    if msg.GuildID ≠ bot.TargetGuildID then (none, none)
    else if msg.MentionsSelf = false then (none, none)
    else if member.RoleIDs.any (fun id => bot.AllowedRoleIDs.contains id) = false then
      (none, none)
    else
      match cutNewline msg.Content with
      | none => (none, none)
      | some (header, body) =>
        if goHasPrefix header (mention bot.SelfID) = false then (none, none)
        else
          let command := goToLower (goTrimSpace (goTrimPrefix header (mention bot.SelfID)))
          if command = [] then (none, none)
          else if body = [] then (none, none)
          else (some ⟨command, body⟩, none)

/-- The announce rate-limit gate (`main.go` line 201):
`time.Since(bot.LastAnnouncedTime) < bot.MinAnnounceTimeGap`, i.e. the
command is rejected when `now - lastAnnounceTime < minGap`. -/
def rateLimited (now lastAnnounceTime minGap : Int) : Bool :=
  now - lastAnnounceTime < minGap

/-- The contents of the durable `lastSentAuthors` map
(`persist.NewMap[discord.UserID, discord.MessageID]`), as an association
list; a later `Store` for the same author shadows earlier entries. -/
abbrev StoreMap := List (UserID × MessageID)

/-- Embeds `lastSentAuthors.Load(author)` on the map contents: the most
recently stored message identifier for `author`, if any. -/
def storeGet (m : StoreMap) (author : UserID) : Option MessageID :=
  (m.find? (fun e => e.1 = author)).map (·.2)

/-- A successful `lastSentAuthors.Store(author, id)`: overwrites the
record for `author`. -/
def storePut (m : StoreMap) (author : UserID) (id : MessageID) : StoreMap :=
  (author, id) :: m

/-- Fixed reply text: the rate-limit wait message. -/
def waitMsg : Str := "please wait before sending another announcement.".data
/-- Fixed reply text: the announce success acknowledgment. -/
def sentMsg : Str := "the announcement has been sent.".data
/-- Fixed reply text: the edit not-found message. -/
def notFoundMsg : Str := "this bot could not find the last announcement you sent.".data
/-- Fixed reply text of `replyInternalError`. -/
def internalErrMsg : Str :=
  "this bot has encountered an internal error. This error has been logged.".data

/-- Observable side effects of the control loop, in program order. -/
inductive Action where
  /-- Action of `sendReply`: a reply in the invoking channel, referencing the
  invoking message, whose content is the author mention, a comma and
  the fixed text. -/
  | reply (channelID : ChannelID) (content : Str) (referenceID : MessageID)
  /-- Records that `session.SendMessage(targetChannel, body)` was invoked. -/
  | sendMessage (channelID : ChannelID) (body : Str)
  /-- Records that `session.EditMessage(targetChannel, id, body)` was invoked. -/
  | editMessage (channelID : ChannelID) (messageID : MessageID) (body : Str)
  /-- Records that `lastSentAuthors.Load(author)` was invoked. -/
  | loadCall (author : UserID)
  /-- Records that `lastSentAuthors.Store(author, id)` was invoked. -/
  | storeCall (author : UserID) (messageID : MessageID)
  /-- Records that `session.MemberState.Subscribe(guild)` was invoked. -/
  | memberSubscribe (guildID : GuildID)
  /-- Records that `session.AddSyncHandler(msgCh)` was invoked. -/
  | addSyncHandler
deriving DecidableEq

/-- Embeds `sendReply session ev content` as an action: the reply content is
prefixed with `ev.Author.Mention() + ", "`. -/
def replyTo (msg : MessageCreateEvent) (content : Str) : Action :=
  .reply msg.ChannelID (mention msg.AuthorID ++ ", ".data ++ content) msg.ID

deriving instance DecidableEq for Except

/-- Results of the external calls a single message dispatch may make,
supplied as inputs to the embedding.  `nowAtGate` is `time.Now()` at the
rate-limit check; `nowAfterSend` is `time.Now()` at the
`LastAnnouncedTime` update. -/
structure WorldResults where
  nowAtGate : Int
  nowAfterSend : Int
  sendMessageResult : Except GoError MessageID
  storeErr : Option GoError
  loadErr : Option GoError
  editErr : Option GoError
deriving DecidableEq

/-- One `ev := <-msgCh` iteration of the control loop (`main.go` lines
177–259): parse, then dispatch `announce` / `edit`; any other command
falls through the `switch` with no effect.  Returns the updated bot
state, the updated store contents, and the emitted actions. -/
def handleMessage (bot : botState) (store : StoreMap) (msg : MessageCreateEvent)
    (w : WorldResults) : botState × StoreMap × List Action :=
  match (parseCommand bot msg).1 with
  | none => (bot, store, [])
  | some command =>
    if command.Command = "announce".data then
      if rateLimited w.nowAtGate bot.LastAnnouncedTime bot.MinAnnounceTimeGap then
        (bot, store, [replyTo msg waitMsg])
      else
        match w.sendMessageResult with
        | .error _ =>
          (bot, store, [.sendMessage bot.TargetChannelID command.Body, replyTo msg internalErrMsg])
        | .ok targetID =>
          let bot := { bot with LastAnnouncedTime := w.nowAfterSend }
          match w.storeErr with
          | some _ =>
            (bot, store,
              [.sendMessage bot.TargetChannelID command.Body, replyTo msg sentMsg,
               .storeCall msg.AuthorID targetID])
          | none =>
            (bot, storePut store msg.AuthorID targetID,
              [.sendMessage bot.TargetChannelID command.Body, replyTo msg sentMsg,
               .storeCall msg.AuthorID targetID])
    else if command.Command = "edit".data then
      match w.loadErr with
      | some _ => (bot, store, [.loadCall msg.AuthorID, replyTo msg internalErrMsg])
      | none =>
        match storeGet store msg.AuthorID with
        | none => (bot, store, [.loadCall msg.AuthorID, replyTo msg notFoundMsg])
        | some lastSent =>
          match w.editErr with
          | some _ =>
            (bot, store,
              [.loadCall msg.AuthorID, .editMessage bot.TargetChannelID lastSent command.Body,
               replyTo msg internalErrMsg])
          | none =>
            (bot, store,
              [.loadCall msg.AuthorID, .editMessage bot.TargetChannelID lastSent command.Body])
    else (bot, store, [])

/-- The slice of `discord.Channel` the bot reads: the parent guild. -/
structure Channel where
  GuildID : GuildID
deriving DecidableEq

/-- Embeds `trySubscribe` from `main.go`: a no-op success when the target guild
is already recorded; otherwise resolve the target channel
(`session.Cabinet.Channel`, result supplied as `chanResult`), record its
guild, subscribe to the guild's member state and attach the message
sync handler. -/
def trySubscribe (bot : botState) (chanResult : Except GoError Channel) :
    botState × List Action × Bool :=
  if bot.TargetGuildID.isValid then (bot, [], true)
  else
    match chanResult with
    | .error _ => (bot, [], false)
    | .ok ch =>
      ({ bot with TargetGuildID := ch.GuildID },
       [.memberSubscribe ch.GuildID, .addSyncHandler], true)

/-- The fatal startup error (`main.go` line 156). -/
def startupFailErr : GoError := "bot has failed to start up in time".data

/-- One event received by the control loop's `select`.  Lifecycle events
carry the channel-resolution result their `trySubscribe` call would
observe; message events carry the external-call results of their
dispatch. -/
inductive LoopEvent where
  /-- Event that `ctx.Done()` fired; the loop returns `ctx.Err()`. -/
  | ctxDone (err : GoError)
  /-- The `time.After(10 * time.Second)` startup timer fired. -/
  | startupTimeout
  /-- Event that `readyCh` delivered a ready event with the bot's own identity. -/
  | ready (selfID : UserID) (chanResult : Except GoError Channel)
  /-- Event that `readySupplementalCh` delivered an event. -/
  | readySupplemental (chanResult : Except GoError Channel)
  /-- Event that `guildCh` delivered an event. -/
  | guildCreate (chanResult : Except GoError Channel)
  /-- Event that `msgCh` delivered a message event. -/
  | message (msg : MessageCreateEvent) (w : WorldResults)
deriving DecidableEq

/-- One iteration of the control loop's `select` (`main.go` lines
150–261): `.error e` means the loop (and the bot) terminates with `e`;
`.ok` carries the next state, the store contents and the emitted
actions. -/
def loopStep (bot : botState) (store : StoreMap) (ev : LoopEvent) :
    Except GoError (botState × StoreMap × List Action) :=
  match ev with
  | .ctxDone err => .error err
  | .startupTimeout => .error startupFailErr
  | .ready selfID chanResult =>
    let bot := { bot with SelfID := selfID }
    let (bot, acts, _) := trySubscribe bot chanResult
    .ok (bot, store, acts)
  | .readySupplemental chanResult =>
    let (bot, acts, _) := trySubscribe bot chanResult
    .ok (bot, store, acts)
  | .guildCreate chanResult =>
    let (bot, acts, _) := trySubscribe bot chanResult
    .ok (bot, store, acts)
  | .message msg w => .ok (handleMessage bot store msg w)

/-- Test fixture: a subscribed bot (target channel 10, allowed role 7,
4-hour announce gap, self identity 1, target guild 5). -/
def exBot : botState :=
  { TargetChannelID := 10, AllowedRoleIDs := [7], MinAnnounceTimeGap := 4 * Hour,
    SelfID := 1, TargetGuildID := 5, LastAnnouncedTime := 0 }

/-- Test fixture: an authorized, well-formed announce command message. -/
def exAnnounceMsg : MessageCreateEvent :=
  { ID := 100, ChannelID := 20, GuildID := 5, AuthorID := 42,
    Content := "<@1> announce\nhello world".data, Member := some ⟨[3, 7]⟩,
    MentionsSelf := true }

/-- Test fixture: the same message with the command upper-cased. -/
def exUpperMsg : MessageCreateEvent :=
  { exAnnounceMsg with Content := "<@1> ANNOUNCE\nhello world".data }

/-- Test fixture: an authorized edit command from the same author. -/
def exEditMsg : MessageCreateEvent :=
  { exAnnounceMsg with ID := 101, Content := "<@1> edit\nrevised".data }

/-- Test fixture: an authorized message with an unrecognized command. -/
def exPingMsg : MessageCreateEvent :=
  { exAnnounceMsg with ID := 102, Content := "<@1> ping\nhello".data }

/-- Test fixture: a direct message (no guild member record). -/
def exDMMsg : MessageCreateEvent :=
  { exAnnounceMsg with ID := 103, GuildID := 0, Member := none }

/-- Test fixture: an authorized message whose content has no newline. -/
def exNoNewlineMsg : MessageCreateEvent :=
  { exAnnounceMsg with ID := 104, Content := "<@1> announce hello".data }

/-- Test fixture: external-call results where every call succeeds and the
sent announcement gets message identifier 777. -/
def exW : WorldResults :=
  { nowAtGate := 5 * Hour, nowAfterSend := 5 * Hour + Second,
    sendMessageResult := .ok 777, storeErr := none, loadErr := none, editErr := none }

/-- The control loop's initial bot state
(`bot := botState{botSettings: settings}` in `run`): the `settings`
configuration with self identity, target guild and last-announce time
still zero. -/
def initialBot : botState :=
  { tobotSettings := settings, SelfID := 0, TargetGuildID := 0, LastAnnouncedTime := 0 }

/-- Test fixture: `initialBot` after the ready event (self identity 1)
and a successful subscription to guild 5. -/
def readyBot : botState := { initialBot with SelfID := 1, TargetGuildID := 5 }

/-- Helper: a message dispatch never touches the target guild identity
and never emits a member-subscription side effect. -/
theorem handleMessage_no_subscribe (bot : botState) (store : StoreMap)
    (msg : MessageCreateEvent) (w : WorldResults) :
    (handleMessage bot store msg w).1.TargetGuildID = bot.TargetGuildID ∧
    ∀ g, Action.memberSubscribe g ∉ (handleMessage bot store msg w).2.2 := by
  unfold handleMessage replyTo
  repeat' split
  all_goals exact ⟨rfl, by intro g; simp⟩

/-- Claim C1 (refuted; code bug): the claim says the startup deadline can
no longer terminate the loop once subscription has succeeded.  In the
code, the `time.After(10 * time.Second)` case remains armed in the
`select` forever: this theorem evaluates the loop at the failing trace —
starting from the program's initial state, a ready event whose channel
resolution succeeds leaves the loop subscribed (Ready, valid target
guild), yet the next startup-timeout event still terminates the loop
with the startup-failure error. -/
theorem C1_startup_timer_fires_after_ready :
    loopStep initialBot [] (.ready 1 (.ok ⟨5⟩)) =
      .ok (readyBot, [], [.memberSubscribe 5, .addSyncHandler]) ∧
    GuildID.isValid readyBot.TargetGuildID = true ∧
    loopStep readyBot [] .startupTimeout = .error startupFailErr :=
  ⟨by decide, by decide, by decide⟩

/-- Claim C2: an announce command is allowed by the rate-limit gate iff
`now - lastAnnounceTime ≥ minGap`; a gated dispatch replies with the
wait message and changes nothing; with a 4-hour gap, an announce
3 h 59 m after the last one is rejected and one at exactly 4 h is
allowed. -/
theorem C2_rate_limiter (bot : botState) (store : StoreMap) (msg : MessageCreateEvent)
    (w : WorldResults) (c : parsedCommand)
    (hp : (parseCommand bot msg).1 = some c) (hc : c.Command = "announce".data) :
    (rateLimited w.nowAtGate bot.LastAnnouncedTime bot.MinAnnounceTimeGap = false ↔
      w.nowAtGate - bot.LastAnnouncedTime ≥ bot.MinAnnounceTimeGap) ∧
    (rateLimited w.nowAtGate bot.LastAnnouncedTime bot.MinAnnounceTimeGap = true →
      handleMessage bot store msg w = (bot, store, [replyTo msg waitMsg])) ∧
    (∀ t0 : Int, rateLimited (t0 + (3 * Hour + 59 * Minute)) t0 (4 * Hour) = true ∧
      rateLimited (t0 + 4 * Hour) t0 (4 * Hour) = false) := by
  refine ⟨?_, ?_, ?_⟩
  · simp [rateLimited, ge_iff_le, not_lt]
  · intro hgate
    unfold handleMessage
    rw [hp]
    dsimp only
    rw [hc, if_pos rfl, if_pos hgate]
  · intro t0
    constructor
    · simp only [rateLimited, Hour, Minute, Second, decide_eq_true_eq]
      omega
    · simp only [rateLimited, Hour, Minute, Second, decide_eq_false_iff_not, not_lt]
      omega

/-- Witness for C2 at the example fixture (the announce parses, and the
4-hour instances hold at `t0 = 0`). -/
theorem C2_rate_limiter_witness :
    ((parseCommand exBot exAnnounceMsg).1 = some ⟨"announce".data, "hello world".data⟩ ∧
     (⟨"announce".data, "hello world".data⟩ : parsedCommand).Command = "announce".data) ∧
    (rateLimited (0 + (3 * Hour + 59 * Minute)) 0 (4 * Hour) = true ∧
     rateLimited (0 + 4 * Hour) 0 (4 * Hour) = false) :=
  ⟨⟨by decide, rfl⟩,
   (C2_rate_limiter exBot [] exAnnounceMsg exW ⟨"announce".data, "hello world".data⟩
      (by decide) rfl).2.2 0⟩

/-- Claim C3: a dispatched edit command replies internal-error and stops
on a store Load error; replies could-not-find and never calls the edit
operation on a not-found result; on a found result edits exactly the
message identifier most recently stored for that author with the new
body, replying internal-error on edit failure and nothing on success;
and the store lookup honours most-recent-per-author semantics. -/
theorem C3_edit_outcomes (bot : botState) (store : StoreMap)
    (msg : MessageCreateEvent) (w : WorldResults) (c : parsedCommand)
    (hp : (parseCommand bot msg).1 = some c) (hc : c.Command = "edit".data) :
    (∀ e, w.loadErr = some e →
      handleMessage bot store msg w =
        (bot, store, [.loadCall msg.AuthorID, replyTo msg internalErrMsg])) ∧
    (w.loadErr = none → storeGet store msg.AuthorID = none →
      handleMessage bot store msg w =
        (bot, store, [.loadCall msg.AuthorID, replyTo msg notFoundMsg])) ∧
    (∀ id, w.loadErr = none → storeGet store msg.AuthorID = some id →
      ((∀ e, w.editErr = some e →
        handleMessage bot store msg w =
          (bot, store,
           [.loadCall msg.AuthorID, .editMessage bot.TargetChannelID id c.Body,
            replyTo msg internalErrMsg])) ∧
       (w.editErr = none →
        handleMessage bot store msg w =
          (bot, store,
           [.loadCall msg.AuthorID, .editMessage bot.TargetChannelID id c.Body])))) ∧
    (∀ (m : StoreMap) (a : UserID) (i : MessageID),
      storeGet (storePut m a i) a = some i ∧
      ∀ b, b ≠ a → storeGet (storePut m a i) b = storeGet m b) := by
  have hred : handleMessage bot store msg w =
      match w.loadErr with
      | some _ => (bot, store, [.loadCall msg.AuthorID, replyTo msg internalErrMsg])
      | none =>
        match storeGet store msg.AuthorID with
        | none => (bot, store, [.loadCall msg.AuthorID, replyTo msg notFoundMsg])
        | some lastSent =>
          match w.editErr with
          | some _ =>
            (bot, store,
             [.loadCall msg.AuthorID, .editMessage bot.TargetChannelID lastSent c.Body,
              replyTo msg internalErrMsg])
          | none =>
            (bot, store,
             [.loadCall msg.AuthorID, .editMessage bot.TargetChannelID lastSent c.Body]) := by
    unfold handleMessage
    rw [hp]
    dsimp only
    rw [hc, if_neg (by decide), if_pos rfl]
  refine ⟨?_, ?_, ?_, ?_⟩
  · intro e he
    rw [hred, he]
  · intro hl hn
    rw [hred, hl]
    dsimp only
    rw [hn]
  · intro id hl hs
    constructor
    · intro e he
      rw [hred, hl]
      dsimp only
      rw [hs]
      dsimp only
      rw [he]
    · intro he
      rw [hred, hl]
      dsimp only
      rw [hs]
      dsimp only
      rw [he]
  · intro m a i
    refine ⟨by simp [storeGet, storePut], ?_⟩
    intro b hb
    simp [storeGet, storePut, List.find?_cons, hb, Ne.symm hb]

/-- Witness for C3: with a stored record `(42, 777)` and a successful
edit call, the dispatch edits message 777 in the target channel and
sends no reply. -/
theorem C3_edit_outcomes_witness :
    ((parseCommand exBot exEditMsg).1 = some ⟨"edit".data, "revised".data⟩ ∧
     exW.loadErr = none ∧ storeGet [(42, 777)] exEditMsg.AuthorID = some 777 ∧
     exW.editErr = none) ∧
    handleMessage exBot [(42, 777)] exEditMsg exW =
      (exBot, [(42, 777)],
       [.loadCall exEditMsg.AuthorID,
        .editMessage exBot.TargetChannelID 777
          (⟨"edit".data, "revised".data⟩ : parsedCommand).Body]) :=
  ⟨⟨by decide, rfl, by decide, rfl⟩,
   ((C3_edit_outcomes exBot [(42, 777)] exEditMsg exW ⟨"edit".data, "revised".data⟩
       (by decide) rfl).2.2.1 777 rfl (by decide)).2 rfl⟩

/-- Claim C4: for an announce that passes the rate gate, a send failure
yields only the internal-error reply with no state change and no Store
call; a successful send updates `LastAnnouncedTime` to now, sends the
success acknowledgment, then attempts `Store(author, sentMessageID)`,
and a Store failure changes neither the already-sent announcement, the
replies, nor the updated state — only the store contents stay as they
were. -/
theorem C4_announce_outcomes (bot : botState) (store : StoreMap)
    (msg : MessageCreateEvent) (w : WorldResults) (c : parsedCommand)
    (hp : (parseCommand bot msg).1 = some c) (hc : c.Command = "announce".data)
    (hgate : rateLimited w.nowAtGate bot.LastAnnouncedTime bot.MinAnnounceTimeGap = false) :
    (∀ e, w.sendMessageResult = .error e →
      handleMessage bot store msg w =
        (bot, store,
         [.sendMessage bot.TargetChannelID c.Body, replyTo msg internalErrMsg])) ∧
    (∀ target, w.sendMessageResult = .ok target →
      handleMessage bot store msg w =
        ({ bot with LastAnnouncedTime := w.nowAfterSend },
         if w.storeErr = none then storePut store msg.AuthorID target else store,
         [.sendMessage bot.TargetChannelID c.Body, replyTo msg sentMsg,
          .storeCall msg.AuthorID target])) := by
  have hred : handleMessage bot store msg w =
      match w.sendMessageResult with
      | .error _ =>
        (bot, store, [.sendMessage bot.TargetChannelID c.Body, replyTo msg internalErrMsg])
      | .ok targetID =>
        ({ bot with LastAnnouncedTime := w.nowAfterSend },
         match w.storeErr with
         | some _ => store
         | none => storePut store msg.AuthorID targetID,
         [.sendMessage bot.TargetChannelID c.Body, replyTo msg sentMsg,
          .storeCall msg.AuthorID targetID]) := by
    unfold handleMessage
    rw [hp]
    dsimp only
    rw [hc, if_pos rfl, if_neg (by rw [hgate]; exact Bool.false_ne_true)]
    rcases w.sendMessageResult with e | target
    · rfl
    · dsimp only
      rcases w.storeErr with _ | e <;> rfl
  refine ⟨?_, ?_⟩
  · intro e he
    rw [hred, he]
  · intro target ht
    rw [hred, ht]
    dsimp only
    rcases hst : w.storeErr with _ | e
    · rw [if_pos rfl]
    · rw [if_neg (fun h => Option.noConfusion h)]

/-- Witness for C4: at the example fixture, the successful send with
message identifier 777 updates the state, acknowledges, and stores. -/
theorem C4_announce_outcomes_witness :
    ((parseCommand exBot exAnnounceMsg).1 = some ⟨"announce".data, "hello world".data⟩ ∧
     rateLimited exW.nowAtGate exBot.LastAnnouncedTime exBot.MinAnnounceTimeGap = false ∧
     exW.sendMessageResult = .ok 777) ∧
    handleMessage exBot [] exAnnounceMsg exW =
      ({ exBot with LastAnnouncedTime := exW.nowAfterSend },
       if exW.storeErr = none then storePut [] exAnnounceMsg.AuthorID 777 else [],
       [.sendMessage exBot.TargetChannelID
          (⟨"announce".data, "hello world".data⟩ : parsedCommand).Body,
        replyTo exAnnounceMsg sentMsg, .storeCall exAnnounceMsg.AuthorID 777]) :=
  ⟨⟨by decide, by decide, rfl⟩,
   (C4_announce_outcomes exBot [] exAnnounceMsg exW ⟨"announce".data, "hello world".data⟩
      (by decide) rfl (by decide)).2 777 rfl⟩

/-- Claim C5: for a direct message, a wrong-guild message, a message
without a self-mention, or an author holding no authorized role, the
parser returns nil and the dispatch has no effect: no reply, no state
change, no store access. -/
theorem C5_unauthorized_rejected (bot : botState) (store : StoreMap)
    (msg : MessageCreateEvent) (w : WorldResults)
    (h : msg.Member = none ∨ msg.GuildID ≠ bot.TargetGuildID ∨ msg.MentionsSelf = false ∨
      ∀ member, msg.Member = some member →
        member.RoleIDs.any (fun id => bot.AllowedRoleIDs.contains id) = false) :
    (parseCommand bot msg).1 = none ∧ handleMessage bot store msg w = (bot, store, []) := by
  have hp : (parseCommand bot msg).1 = none := by
    unfold parseCommand
    rcases hm : msg.Member with _ | member
    · rfl
    · dsimp only
      by_cases hg : msg.GuildID ≠ bot.TargetGuildID
      · rw [if_pos hg]
      · rw [if_neg hg]
        by_cases hs : msg.MentionsSelf = false
        · rw [if_pos hs]
        · rw [if_neg hs]
          have hrole : member.RoleIDs.any (fun id => bot.AllowedRoleIDs.contains id) = false := by
            rcases h with h | h | h | h
            · rw [hm] at h; cases h
            · exact absurd h hg
            · exact absurd h hs
            · exact h member hm
          rw [if_pos hrole]
  refine ⟨hp, ?_⟩
  unfold handleMessage
  rw [hp]

/-- Witness for C5 at a direct message (no member record). -/
theorem C5_unauthorized_rejected_witness :
    exDMMsg.Member = none ∧
    (parseCommand exBot exDMMsg).1 = none ∧
    handleMessage exBot [] exDMMsg exW = (exBot, [], []) :=
  ⟨rfl,
   (C5_unauthorized_rejected exBot [] exDMMsg exW (Or.inl rfl)).1,
   (C5_unauthorized_rejected exBot [] exDMMsg exW (Or.inl rfl)).2⟩

/-- Claim C6: for an authorized, self-mentioning message the parser
returns nil when the content has no newline; otherwise it succeeds
exactly when the first-line header carries the self-mention prefix and,
after stripping it, trimming whitespace and lower-casing, is non-empty,
with the body everything after the first newline verbatim and
non-empty; consequently the command is case-insensitive, as on the
upper- and lower-case example fixtures. -/
theorem C6_format (bot : botState) (msg : MessageCreateEvent) (member : Member)
    (hm : msg.Member = some member) (hg : msg.GuildID = bot.TargetGuildID)
    (hs : msg.MentionsSelf = true)
    (hrole : member.RoleIDs.any (fun id => bot.AllowedRoleIDs.contains id) = true) :
    (msg.Content.contains '\n' = false → (parseCommand bot msg).1 = none) ∧
    (∀ pc, (parseCommand bot msg).1 = some pc ↔
      ∃ header body, cutNewline msg.Content = some (header, body) ∧
        goHasPrefix header (mention bot.SelfID) = true ∧
        pc = ⟨goToLower (goTrimSpace (goTrimPrefix header (mention bot.SelfID))), body⟩ ∧
        goToLower (goTrimSpace (goTrimPrefix header (mention bot.SelfID))) ≠ [] ∧
        body ≠ []) ∧
    ((parseCommand exBot exUpperMsg).1 = (parseCommand exBot exAnnounceMsg).1 ∧
     (parseCommand exBot exUpperMsg).1 = some ⟨"announce".data, "hello world".data⟩) := by
  have hstep : parseCommand bot msg =
      (match cutNewline msg.Content with
       | none => (none, none)
       | some (header, body) =>
         if goHasPrefix header (mention bot.SelfID) = false then (none, none)
         else
           let command := goToLower (goTrimSpace (goTrimPrefix header (mention bot.SelfID)))
           if command = [] then (none, none)
           else if body = [] then (none, none)
           else (some ⟨command, body⟩, none)) := by
    unfold parseCommand
    rw [hm]
    dsimp only
    rw [if_neg (by simp [hg]), if_neg (by simp [hs]), if_neg (by simp only [hrole]; decide)]
  refine ⟨?_, ?_, by decide, by decide⟩
  · intro hnl
    rw [hstep]
    have hcn : cutNewline msg.Content = none := by
      unfold cutNewline
      exact if_neg (by rw [hnl]; simp)
    rw [hcn]
  · intro pc
    rw [hstep]
    rcases hcut : cutNewline msg.Content with _ | ⟨header, body⟩
    · simp
    · dsimp only
      by_cases hpre : goHasPrefix header (mention bot.SelfID) = false
      · rw [if_pos hpre]
        simp [hpre]
      · rw [if_neg hpre]
        have hpre' : goHasPrefix header (mention bot.SelfID) = true := by
          cases hb : goHasPrefix header (mention bot.SelfID)
          · exact absurd hb hpre
          · rfl
        by_cases hcmd : goToLower (goTrimSpace (goTrimPrefix header (mention bot.SelfID))) = []
        · rw [if_pos hcmd]
          simp [hcmd]
        · rw [if_neg hcmd]
          by_cases hbody : body = []
          · rw [if_pos hbody]
            simp [hbody]
          · rw [if_neg hbody]
            dsimp only
            constructor
            · intro hsome
              injection hsome with hsome
              exact ⟨header, body, rfl, hpre', hsome.symm ▸ rfl, hcmd, hbody⟩
            · rintro ⟨h', b', hcut', hpre'', hpc, hcmd', hbody'⟩
              injection hcut' with e
              obtain ⟨e1, e2⟩ := Prod.ext_iff.mp e
              dsimp only at e1 e2
              subst e1
              subst e2
              rw [hpc]

/-- Witness for C6: the no-newline fixture is authorized yet parses to
nil. -/
theorem C6_format_witness :
    (exNoNewlineMsg.Member = some ⟨[3, 7]⟩ ∧
     exNoNewlineMsg.GuildID = exBot.TargetGuildID ∧
     exNoNewlineMsg.MentionsSelf = true ∧
     (Member.mk [3, 7]).RoleIDs.any (fun id => exBot.AllowedRoleIDs.contains id) = true ∧
     exNoNewlineMsg.Content.contains '\n' = false) ∧
    (parseCommand exBot exNoNewlineMsg).1 = none :=
  ⟨⟨rfl, rfl, rfl, by decide, by decide⟩,
   (C6_format exBot exNoNewlineMsg ⟨[3, 7]⟩ rfl rfl rfl (by decide)).1 (by decide)⟩

/-- Claim C7: once the target guild identity is set (valid), every
subsequent subscription attempt is a no-op success with no duplicate
subscription side effect, and no loop step that continues ever changes
the recorded guild identity or emits a member-subscription action. -/
theorem C7_guild_once_set (bot : botState)
    (hvalid : GuildID.isValid bot.TargetGuildID = true) :
    (∀ chanResult, trySubscribe bot chanResult = (bot, [], true)) ∧
    (∀ store ev bot' store' acts, loopStep bot store ev = .ok (bot', store', acts) →
      bot'.TargetGuildID = bot.TargetGuildID ∧ ∀ g, Action.memberSubscribe g ∉ acts) := by
  have hsub : ∀ (b : botState), b.TargetGuildID = bot.TargetGuildID →
      ∀ chanResult, trySubscribe b chanResult = (b, [], true) := by
    intro b hb chanResult
    unfold trySubscribe
    rw [hb, if_pos hvalid]
  have hinv : ∀ (p : botState × StoreMap × List Action) bot' store' acts,
      (Except.ok p : Except GoError (botState × StoreMap × List Action))
          = .ok (bot', store', acts) →
      p.1 = bot' ∧ p.2.1 = store' ∧ p.2.2 = acts := by
    intro p bot' store' acts h
    injection h with h
    rw [h]
    exact ⟨rfl, rfl, rfl⟩
  refine ⟨hsub bot rfl, ?_⟩
  intro store ev bot' store' acts h
  cases ev with
  | ctxDone e => cases h
  | startupTimeout => cases h
  | ready selfID chanResult =>
    unfold loopStep at h
    dsimp only at h
    rw [hsub { bot with SelfID := selfID } rfl chanResult] at h
    dsimp only at h
    obtain ⟨h1, h2, h3⟩ := hinv _ _ _ _ h
    refine ⟨by rw [← h1], ?_⟩
    intro g
    rw [← h3]
    simp
  | readySupplemental chanResult =>
    unfold loopStep at h
    dsimp only at h
    rw [hsub bot rfl chanResult] at h
    dsimp only at h
    obtain ⟨h1, h2, h3⟩ := hinv _ _ _ _ h
    refine ⟨by rw [← h1], ?_⟩
    intro g
    rw [← h3]
    simp
  | guildCreate chanResult =>
    unfold loopStep at h
    dsimp only at h
    rw [hsub bot rfl chanResult] at h
    dsimp only at h
    obtain ⟨h1, h2, h3⟩ := hinv _ _ _ _ h
    refine ⟨by rw [← h1], ?_⟩
    intro g
    rw [← h3]
    simp
  | message msg w =>
    unfold loopStep at h
    dsimp only at h
    obtain ⟨h1, h2, h3⟩ := hinv _ _ _ _ h
    refine ⟨?_, ?_⟩
    · rw [← h1]
      exact (handleMessage_no_subscribe bot store msg w).1
    · intro g
      rw [← h3]
      exact (handleMessage_no_subscribe bot store msg w).2 g

/-- Witness for C7: the subscribed fixture makes a further subscription
attempt a recorded no-op success. -/
theorem C7_guild_once_set_witness :
    GuildID.isValid exBot.TargetGuildID = true ∧
    trySubscribe exBot (Except.ok ⟨9⟩) = (exBot, [], true) :=
  ⟨by decide, (C7_guild_once_set exBot (by decide)).1 (Except.ok ⟨9⟩)⟩

/-- Claim C8: a successfully parsed command other than announce and edit
is a silent no-op: no reply, no send or edit, no store access, no state
change. -/
theorem C8_unknown_noop (bot : botState) (store : StoreMap) (msg : MessageCreateEvent)
    (w : WorldResults) (c : parsedCommand) (hp : (parseCommand bot msg).1 = some c)
    (hann : c.Command ≠ "announce".data) (hedit : c.Command ≠ "edit".data) :
    handleMessage bot store msg w = (bot, store, []) := by
  unfold handleMessage
  rw [hp]
  dsimp only
  rw [if_neg hann, if_neg hedit]

/-- Witness for C8: the parsed ping command dispatches to nothing. -/
theorem C8_unknown_noop_witness :
    ((parseCommand exBot exPingMsg).1 = some ⟨"ping".data, "hello".data⟩ ∧
     (⟨"ping".data, "hello".data⟩ : parsedCommand).Command ≠ "announce".data ∧
     (⟨"ping".data, "hello".data⟩ : parsedCommand).Command ≠ "edit".data) ∧
    handleMessage exBot [] exPingMsg exW = (exBot, [], []) :=
  ⟨⟨by decide, by decide, by decide⟩,
   C8_unknown_noop exBot [] exPingMsg exW ⟨"ping".data, "hello".data⟩
     (by decide) (by decide) (by decide)⟩

/-- Claim C9: the parser's declared error result is nil on every input,
so the caller's parse-error branch is unreachable and nil is the normal
no-match outcome. -/
theorem C9_parse_never_errors (bot : botState) (msg : MessageCreateEvent) :
    (parseCommand bot msg).2 = none := by
  unfold parseCommand
  rcases msg.Member with _ | member
  · rfl
  · dsimp only
    repeat (first | rfl | split)

/-- Claim C10: a dispatched edit command, whatever its outcome, leaves
the whole bot state (self identity, target guild, last-announce time)
and the store contents unchanged: an edit never resets the announce
rate limit, and repeated edits by an author keep reading the same
stored record. -/
theorem C10_edit_frame (bot : botState) (store : StoreMap) (msg : MessageCreateEvent)
    (w : WorldResults) (c : parsedCommand) (hp : (parseCommand bot msg).1 = some c)
    (hc : c.Command = "edit".data) :
    (handleMessage bot store msg w).1 = bot ∧
    (handleMessage bot store msg w).2.1 = store ∧
    (handleMessage bot store msg w).1.SelfID = bot.SelfID ∧
    (handleMessage bot store msg w).1.TargetGuildID = bot.TargetGuildID ∧
    (handleMessage bot store msg w).1.LastAnnouncedTime = bot.LastAnnouncedTime ∧
    ∀ a, storeGet (handleMessage bot store msg w).2.1 a = storeGet store a := by
  have key : (handleMessage bot store msg w).1 = bot ∧
      (handleMessage bot store msg w).2.1 = store := by
    unfold handleMessage
    rw [hp]
    dsimp only
    rw [hc]
    rw [if_neg (by decide), if_pos rfl]
    rcases w.loadErr with _ | e
    · rcases storeGet store msg.AuthorID with _ | id
      · exact ⟨rfl, rfl⟩
      · rcases w.editErr with _ | e
        · exact ⟨rfl, rfl⟩
        · exact ⟨rfl, rfl⟩
    · exact ⟨rfl, rfl⟩
  exact ⟨key.1, key.2, by rw [key.1], by rw [key.1], by rw [key.1], fun a => by rw [key.2]⟩

/-- Witness for C10: an edit with a stored record for another message
identifier leaves the bot state and store contents untouched. -/
theorem C10_edit_frame_witness :
    (parseCommand exBot exEditMsg).1 = some ⟨"edit".data, "revised".data⟩ ∧
    (handleMessage exBot [(42, 888)] exEditMsg exW).1 = exBot ∧
    (handleMessage exBot [(42, 888)] exEditMsg exW).2.1 = [(42, 888)] :=
  ⟨by decide,
   (C10_edit_frame exBot [(42, 888)] exEditMsg exW ⟨"edit".data, "revised".data⟩
      (by decide) rfl).1,
   (C10_edit_frame exBot [(42, 888)] exEditMsg exW ⟨"edit".data, "revised".data⟩
      (by decide) rfl).2.1⟩

end MessageForMe
